import Mathlib

/-!
Chain parameters.

A shallow embedding of `src/chainparams.h`: the class `CChainParams`, its two
enumerations, its `const` accessors and the two derived retarget intervals.

Conventions of the embedding.

* `unsigned char` is `Fin 256`; `int` and `int64_t` fields are carried as `Int`,
  and the predicates `InInt32` / `InInt64` say when a value is representable.
* The types `CBlock` and `CAddress` come from headers that are not part of the
  embedded source (`core.h`, `protocol.h`); the class is parametric in them.
* An operation whose behaviour C++ leaves undefined (division by zero, a
  quotient that does not fit, indexing outside an array) yields `none`.
-/

namespace ChainParams

/-! ## Machine types -/

/-- One `unsigned char`. -/
abbrev Byte : Type := Fin 256

/-- A `uint256` value. -/
abbrev uint256 : Type := Fin (2 ^ 256)

/-- Smallest `int64_t`. -/
def INT64_MIN : Int := -(2 ^ 63)

/-- Largest `int64_t`. -/
def INT64_MAX : Int := 2 ^ 63 - 1

/-- Representable as `int64_t`. -/
def InInt64 (x : Int) : Prop := INT64_MIN ≤ x ∧ x ≤ INT64_MAX

instance (x : Int) : Decidable (InInt64 x) := by
  unfold InInt64; infer_instance

/-- Representable as a 32-bit `int`. -/
def InInt32 (x : Int) : Prop := -(2 ^ 31) ≤ x ∧ x ≤ 2 ^ 31 - 1

instance (x : Int) : Decidable (InInt32 x) := by
  unfold InInt32; infer_instance

/-- The C++ expression `a / b` on two `int64_t` operands. The quotient is the
algebraic quotient with the fractional part discarded; the behaviour is
undefined when `b` is zero and when the quotient is not representable
(`INT64_MIN / -1`). -/
def div64 (a b : Int) : Option Int :=
  if b = 0 then none
  else if a = INT64_MIN ∧ b = -1 then none
  else some (Int.tdiv a b)

/-! ## Declarations of `chainparams.h` -/

/-- Modelled from the spec: `MESSAGE_START_SIZE` is declared in `protocol.h`,
which is not part of the embedded source; the message-start marker has 4 bytes. -/
def MESSAGE_START_SIZE : Nat := 4

/-- The array type `MessageStartChars`. -/
abbrev MessageStartChars : Type := Fin MESSAGE_START_SIZE → Byte

/-- A DNS seed: name and host. -/
structure CDNSSeedData where
  name : String
  host : String
  deriving DecidableEq, Repr

/-- The enumeration `CChainParams::Network`, count sentinel included. -/
inductive Network where
  | MAIN
  | TESTNET
  | REGTEST
  | MAX_NETWORK_TYPES
  deriving DecidableEq, Repr

/-- The enumeration `CChainParams::Base58Type`, count sentinel included. -/
inductive Base58Type where
  | PUBKEY_ADDRESS
  | SCRIPT_ADDRESS
  | SECRET_KEY
  | EXT_PUBLIC_KEY
  | EXT_SECRET_KEY
  | MAX_BASE58_TYPES
  deriving DecidableEq, Repr

/-- The integer value of an enumerator of `Base58Type`. -/
def Base58Type.toNat : Base58Type → Nat
  | .PUBKEY_ADDRESS => 0
  | .SCRIPT_ADDRESS => 1
  | .SECRET_KEY => 2
  | .EXT_PUBLIC_KEY => 3
  | .EXT_SECRET_KEY => 4
  | .MAX_BASE58_TYPES => 5

/-- The array bound `MAX_BASE58_TYPES`. -/
def MAX_BASE58_TYPES : Nat := Base58Type.MAX_BASE58_TYPES.toNat

/-- The data members of `CChainParams`, in declaration order. -/
structure CChainParams (CBlock CAddress : Type) where
  hashGenesisBlock : uint256
  pchMessageStart : MessageStartChars
  vAlertPubKey : List Byte
  nDefaultPort : Int
  nRPCPort : Int
  bnProofOfWorkLimit : uint256
  nSubsidyHalvingInterval : Int
  nEnforceBlockUpgradeMajority : Int
  nRejectBlockOutdatedMajority : Int
  nToCheckBlockUpgradeMajority : Int
  strDataDir : String
  nTargetTimespan : Int
  nTargetSpacing : Int
  nMinerThreads : Int
  vSeeds : List CDNSSeedData
  base58Prefixes : Fin MAX_BASE58_TYPES → List Byte
  networkID : Network
  genesis : CBlock
  vFixedSeeds : List CAddress
  fRequireRPCPassword : Bool
  fMiningRequiresPeers : Bool
  fDefaultCheckMemPool : Bool
  fAllowMinDifficultyBlocks : Bool
  fRequireStandard : Bool
  fRPCisTestNet : Bool
  fMineBlocksOnDemand : Bool
  fSimplifiedRewards : Bool
  nAuxPowStartBlock : Int
  fAllowSelfAuxParent : Bool
  nDigiShieldForkBlock : Int
  nDigiShieldTargetTimespan : Int
  nMinDifficultyAllowedStartBlock : Int

namespace CChainParams

variable {CBlock CAddress : Type}

/-- Every `int` and `int64_t` member holds a representable value. -/
def WellTyped (self : CChainParams CBlock CAddress) : Prop :=
  InInt32 self.nDefaultPort ∧ InInt32 self.nRPCPort ∧
  InInt32 self.nSubsidyHalvingInterval ∧
  InInt32 self.nEnforceBlockUpgradeMajority ∧
  InInt32 self.nRejectBlockOutdatedMajority ∧
  InInt32 self.nToCheckBlockUpgradeMajority ∧
  InInt64 self.nTargetTimespan ∧ InInt64 self.nTargetSpacing ∧
  InInt32 self.nMinerThreads ∧ InInt32 self.nAuxPowStartBlock ∧
  InInt32 self.nDigiShieldForkBlock ∧
  InInt64 self.nDigiShieldTargetTimespan ∧
  InInt32 self.nMinDifficultyAllowedStartBlock

instance (self : CChainParams CBlock CAddress) : Decidable (WellTyped self) := by
  unfold WellTyped; infer_instance

def HashGenesisBlock (self : CChainParams CBlock CAddress) : uint256 := self.hashGenesisBlock
def MessageStart (self : CChainParams CBlock CAddress) : MessageStartChars := self.pchMessageStart
def AlertKey (self : CChainParams CBlock CAddress) : List Byte := self.vAlertPubKey
def GetDefaultPort (self : CChainParams CBlock CAddress) : Int := self.nDefaultPort
def ProofOfWorkLimit (self : CChainParams CBlock CAddress) : uint256 := self.bnProofOfWorkLimit
def SubsidyHalvingInterval (self : CChainParams CBlock CAddress) : Int := self.nSubsidyHalvingInterval
def EnforceBlockUpgradeMajority (self : CChainParams CBlock CAddress) : Int :=
  self.nEnforceBlockUpgradeMajority
def RejectBlockOutdatedMajority (self : CChainParams CBlock CAddress) : Int :=
  self.nRejectBlockOutdatedMajority
def ToCheckBlockUpgradeMajority (self : CChainParams CBlock CAddress) : Int :=
  self.nToCheckBlockUpgradeMajority
def DefaultMinerThreads (self : CChainParams CBlock CAddress) : Int := self.nMinerThreads
def GenesisBlock (self : CChainParams CBlock CAddress) : CBlock := self.genesis
def RequireRPCPassword (self : CChainParams CBlock CAddress) : Bool := self.fRequireRPCPassword
def MiningRequiresPeers (self : CChainParams CBlock CAddress) : Bool := self.fMiningRequiresPeers
def DefaultCheckMemPool (self : CChainParams CBlock CAddress) : Bool := self.fDefaultCheckMemPool
def AllowMinDifficultyBlocks (self : CChainParams CBlock CAddress) : Bool :=
  self.fAllowMinDifficultyBlocks
def RequireStandard (self : CChainParams CBlock CAddress) : Bool := self.fRequireStandard
def RPCisTestNet (self : CChainParams CBlock CAddress) : Bool := self.fRPCisTestNet
def DataDir (self : CChainParams CBlock CAddress) : String := self.strDataDir
def TargetTimespan (self : CChainParams CBlock CAddress) : Int := self.nTargetTimespan
def TargetSpacing (self : CChainParams CBlock CAddress) : Int := self.nTargetSpacing

/-- The member `Interval()`: `nTargetTimespan / nTargetSpacing`. -/
def Interval (self : CChainParams CBlock CAddress) : Option Int :=
  div64 self.nTargetTimespan self.nTargetSpacing

def MineBlocksOnDemand (self : CChainParams CBlock CAddress) : Bool := self.fMineBlocksOnDemand
def NetworkID (self : CChainParams CBlock CAddress) : Network := self.networkID
def DNSSeeds (self : CChainParams CBlock CAddress) : List CDNSSeedData := self.vSeeds

/-- The member `Base58Prefix(type)`: `base58Prefixes[type]`, an access outside
the array when `type` is not below the array bound. -/
def Base58Prefix (self : CChainParams CBlock CAddress) (type : Base58Type) : Option (List Byte) :=
  if h : type.toNat < MAX_BASE58_TYPES then some (self.base58Prefixes ⟨type.toNat, h⟩) else none

def FixedSeeds (self : CChainParams CBlock CAddress) : List CAddress := self.vFixedSeeds
def RPCPort (self : CChainParams CBlock CAddress) : Int := self.nRPCPort
def SimplifiedRewards (self : CChainParams CBlock CAddress) : Bool := self.fSimplifiedRewards
def GetAuxPowStartBlock (self : CChainParams CBlock CAddress) : Int := self.nAuxPowStartBlock
def AllowSelfAuxParent (self : CChainParams CBlock CAddress) : Bool := self.fAllowSelfAuxParent
def GetDigiShieldForkBlock (self : CChainParams CBlock CAddress) : Int := self.nDigiShieldForkBlock
def DigiShieldTargetTimespan (self : CChainParams CBlock CAddress) : Int :=
  self.nDigiShieldTargetTimespan

/-- The member `DigiShieldInterval()`: `nDigiShieldTargetTimespan / nTargetSpacing`. -/
def DigiShieldInterval (self : CChainParams CBlock CAddress) : Option Int :=
  div64 self.nDigiShieldTargetTimespan self.nTargetSpacing

def GetMinDifficultyAllowedStartBlock (self : CChainParams CBlock CAddress) : Int :=
  self.nMinDifficultyAllowedStartBlock

end CChainParams

/-- A parameter set used in examples: every numeric member is zero except the
three retarget members, every container is empty. -/
def sample (timespan spacing digiTimespan : Int) : CChainParams Unit Unit where
  hashGenesisBlock := 0
  pchMessageStart := fun _ => 0
  vAlertPubKey := []
  nDefaultPort := 0
  nRPCPort := 0
  bnProofOfWorkLimit := 0
  nSubsidyHalvingInterval := 0
  nEnforceBlockUpgradeMajority := 0
  nRejectBlockOutdatedMajority := 0
  nToCheckBlockUpgradeMajority := 0
  strDataDir := ""
  nTargetTimespan := timespan
  nTargetSpacing := spacing
  nMinerThreads := 0
  vSeeds := []
  base58Prefixes := fun _ => []
  networkID := Network.MAIN
  genesis := ()
  vFixedSeeds := []
  fRequireRPCPassword := false
  fMiningRequiresPeers := false
  fDefaultCheckMemPool := false
  fAllowMinDifficultyBlocks := false
  fRequireStandard := false
  fRPCisTestNet := false
  fMineBlocksOnDemand := false
  fSimplifiedRewards := false
  nAuxPowStartBlock := 0
  fAllowSelfAuxParent := false
  nDigiShieldForkBlock := 0
  nDigiShieldTargetTimespan := digiTimespan
  nMinDifficultyAllowedStartBlock := 0

/-! ## Calls of accessors -/

/-- The public `const` member functions of `CChainParams`. -/
inductive Accessor where
  | HashGenesisBlock
  | MessageStart
  | AlertKey
  | GetDefaultPort
  | ProofOfWorkLimit
  | SubsidyHalvingInterval
  | EnforceBlockUpgradeMajority
  | RejectBlockOutdatedMajority
  | ToCheckBlockUpgradeMajority
  | DefaultMinerThreads
  | GenesisBlock
  | RequireRPCPassword
  | MiningRequiresPeers
  | DefaultCheckMemPool
  | AllowMinDifficultyBlocks
  | RequireStandard
  | RPCisTestNet
  | DataDir
  | TargetTimespan
  | TargetSpacing
  | Interval
  | MineBlocksOnDemand
  | NetworkID
  | DNSSeeds
  | Base58Prefix (type : Base58Type)
  | FixedSeeds
  | RPCPort
  | SimplifiedRewards
  | GetAuxPowStartBlock
  | AllowSelfAuxParent
  | GetDigiShieldForkBlock
  | DigiShieldTargetTimespan
  | DigiShieldInterval
  | GetMinDifficultyAllowedStartBlock
  deriving DecidableEq, Repr

/-- What a call of an accessor returns, by return type. -/
inductive Value (CBlock CAddress : Type) where
  | hash (h : uint256)
  | messageStart (m : MessageStartChars)
  | bytes (b : List Byte)
  | int (i : Int)
  | int64 (i : Int)
  | bool (b : Bool)
  | block (b : CBlock)
  | string (s : String)
  | network (n : Network)
  | dnsSeeds (l : List CDNSSeedData)
  | addresses (l : List CAddress)
  deriving DecidableEq

variable {CBlock CAddress : Type}

/-- The result of evaluating the body of an accessor on an object; `none` when
the body has undefined behaviour there. -/
def call (a : Accessor) (self : CChainParams CBlock CAddress) : Option (Value CBlock CAddress) :=
  match a with
  | .HashGenesisBlock => some (.hash self.HashGenesisBlock)
  | .MessageStart => some (.messageStart self.MessageStart)
  | .AlertKey => some (.bytes self.AlertKey)
  | .GetDefaultPort => some (.int self.GetDefaultPort)
  | .ProofOfWorkLimit => some (.hash self.ProofOfWorkLimit)
  | .SubsidyHalvingInterval => some (.int self.SubsidyHalvingInterval)
  | .EnforceBlockUpgradeMajority => some (.int self.EnforceBlockUpgradeMajority)
  | .RejectBlockOutdatedMajority => some (.int self.RejectBlockOutdatedMajority)
  | .ToCheckBlockUpgradeMajority => some (.int self.ToCheckBlockUpgradeMajority)
  | .DefaultMinerThreads => some (.int self.DefaultMinerThreads)
  | .GenesisBlock => some (.block self.GenesisBlock)
  | .RequireRPCPassword => some (.bool self.RequireRPCPassword)
  | .MiningRequiresPeers => some (.bool self.MiningRequiresPeers)
  | .DefaultCheckMemPool => some (.bool self.DefaultCheckMemPool)
  | .AllowMinDifficultyBlocks => some (.bool self.AllowMinDifficultyBlocks)
  | .RequireStandard => some (.bool self.RequireStandard)
  | .RPCisTestNet => some (.bool self.RPCisTestNet)
  | .DataDir => some (.string self.DataDir)
  | .TargetTimespan => some (.int64 self.TargetTimespan)
  | .TargetSpacing => some (.int64 self.TargetSpacing)
  | .Interval => self.Interval.map .int64
  | .MineBlocksOnDemand => some (.bool self.MineBlocksOnDemand)
  | .NetworkID => some (.network self.NetworkID)
  | .DNSSeeds => some (.dnsSeeds self.DNSSeeds)
  | .Base58Prefix type => (self.Base58Prefix type).map .bytes
  | .FixedSeeds => some (.addresses self.FixedSeeds)
  | .RPCPort => some (.int self.RPCPort)
  | .SimplifiedRewards => some (.bool self.SimplifiedRewards)
  | .GetAuxPowStartBlock => some (.int self.GetAuxPowStartBlock)
  | .AllowSelfAuxParent => some (.bool self.AllowSelfAuxParent)
  | .GetDigiShieldForkBlock => some (.int self.GetDigiShieldForkBlock)
  | .DigiShieldTargetTimespan => some (.int64 self.DigiShieldTargetTimespan)
  | .DigiShieldInterval => self.DigiShieldInterval.map .int64
  | .GetMinDifficultyAllowedStartBlock => some (.int self.GetMinDifficultyAllowedStartBlock)

/-- The statements a member-function body may consist of: `return e;`, whose
expression is evaluated on the object and may have undefined behaviour, and an
assignment to members of the object. -/
inductive Stmt (CBlock CAddress : Type) where
  | ret (e : CChainParams CBlock CAddress → Option (Value CBlock CAddress))
  | assign (upd : CChainParams CBlock CAddress → CChainParams CBlock CAddress)

/-- Execution of a body on an object: the value returned and the object
afterwards. An assignment changes the object and execution goes on; a `return`
ends it with the value of its expression on the object as it then is. No
value is returned when that expression has undefined behaviour, or when the
end of the body is reached without a `return`. -/
def exec : List (Stmt CBlock CAddress) → CChainParams CBlock CAddress →
    Option (Value CBlock CAddress) × CChainParams CBlock CAddress
  | [], self => (none, self)
  | .ret e :: _, self => (e self, self)
  | .assign upd :: rest, self => exec rest (upd self)

/-- The body of each accessor, statement by statement as the header has it:
each is one `return` of a member, of a quotient of two members, or of an
element of the prefix table. -/
def body : Accessor → List (Stmt CBlock CAddress)
  | .HashGenesisBlock => [.ret fun self => some (.hash self.hashGenesisBlock)]
  | .MessageStart => [.ret fun self => some (.messageStart self.pchMessageStart)]
  | .AlertKey => [.ret fun self => some (.bytes self.vAlertPubKey)]
  | .GetDefaultPort => [.ret fun self => some (.int self.nDefaultPort)]
  | .ProofOfWorkLimit => [.ret fun self => some (.hash self.bnProofOfWorkLimit)]
  | .SubsidyHalvingInterval => [.ret fun self => some (.int self.nSubsidyHalvingInterval)]
  | .EnforceBlockUpgradeMajority =>
    [.ret fun self => some (.int self.nEnforceBlockUpgradeMajority)]
  | .RejectBlockOutdatedMajority =>
    [.ret fun self => some (.int self.nRejectBlockOutdatedMajority)]
  | .ToCheckBlockUpgradeMajority =>
    [.ret fun self => some (.int self.nToCheckBlockUpgradeMajority)]
  | .DefaultMinerThreads => [.ret fun self => some (.int self.nMinerThreads)]
  | .GenesisBlock => [.ret fun self => some (.block self.genesis)]
  | .RequireRPCPassword => [.ret fun self => some (.bool self.fRequireRPCPassword)]
  | .MiningRequiresPeers => [.ret fun self => some (.bool self.fMiningRequiresPeers)]
  | .DefaultCheckMemPool => [.ret fun self => some (.bool self.fDefaultCheckMemPool)]
  | .AllowMinDifficultyBlocks => [.ret fun self => some (.bool self.fAllowMinDifficultyBlocks)]
  | .RequireStandard => [.ret fun self => some (.bool self.fRequireStandard)]
  | .RPCisTestNet => [.ret fun self => some (.bool self.fRPCisTestNet)]
  | .DataDir => [.ret fun self => some (.string self.strDataDir)]
  | .TargetTimespan => [.ret fun self => some (.int64 self.nTargetTimespan)]
  | .TargetSpacing => [.ret fun self => some (.int64 self.nTargetSpacing)]
  | .Interval =>
    [.ret fun self => (div64 self.nTargetTimespan self.nTargetSpacing).map .int64]
  | .MineBlocksOnDemand => [.ret fun self => some (.bool self.fMineBlocksOnDemand)]
  | .NetworkID => [.ret fun self => some (.network self.networkID)]
  | .DNSSeeds => [.ret fun self => some (.dnsSeeds self.vSeeds)]
  | .Base58Prefix type =>
    [.ret fun self =>
      if h : type.toNat < MAX_BASE58_TYPES then
        some (.bytes (self.base58Prefixes ⟨type.toNat, h⟩))
      else none]
  | .FixedSeeds => [.ret fun self => some (.addresses self.vFixedSeeds)]
  | .RPCPort => [.ret fun self => some (.int self.nRPCPort)]
  | .SimplifiedRewards => [.ret fun self => some (.bool self.fSimplifiedRewards)]
  | .GetAuxPowStartBlock => [.ret fun self => some (.int self.nAuxPowStartBlock)]
  | .AllowSelfAuxParent => [.ret fun self => some (.bool self.fAllowSelfAuxParent)]
  | .GetDigiShieldForkBlock => [.ret fun self => some (.int self.nDigiShieldForkBlock)]
  | .DigiShieldTargetTimespan => [.ret fun self => some (.int64 self.nDigiShieldTargetTimespan)]
  | .DigiShieldInterval =>
    [.ret fun self => (div64 self.nDigiShieldTargetTimespan self.nTargetSpacing).map .int64]
  | .GetMinDifficultyAllowedStartBlock =>
    [.ret fun self => some (.int self.nMinDifficultyAllowedStartBlock)]

/-- One call of an accessor on an object: its body is executed on the object;
the value returned and the object after the call. -/
def invoke (a : Accessor) (self : CChainParams CBlock CAddress) :
    Option (Value CBlock CAddress) × CChainParams CBlock CAddress :=
  exec (body a) self

/-- A sequence of calls on one object, each on the object the previous call
left: the results in order and the object at the end. After a call with
undefined behaviour nothing further is executed. -/
def invokeAll : List Accessor → CChainParams CBlock CAddress →
    List (Option (Value CBlock CAddress)) × CChainParams CBlock CAddress
  | [], self => ([], self)
  | a :: rest, self =>
    match invoke a self with
    | (none, self1) => ([none], self1)
    | (some v, self1) =>
      let r := invokeAll rest self1
      (some v :: r.1, r.2)

/-! ## The quotient of the specification -/

/-- Rounding of a rational number toward zero: the integer part, the fraction
dropped. -/
def roundTowardZero (x : ℚ) : Int :=
  if 0 ≤ x then ⌊x⌋ else ⌈x⌉

/-- The quotient in the words of the specification: the exact quotient of the
timespan by the spacing, a rational number, rounded toward zero. -/
def truncatedQuotient (timespan spacing : Int) : Int :=
  roundTowardZero ((timespan : ℚ) / (spacing : ℚ))

/-! ## Selection of the active parameter set

`chainparams.h` only declares `Params`, `SelectParams` and
`SelectParamsFromCommandLine`, and the three classes derived from
`CChainParams`; their definitions are in `chainparams.cpp`. -/

/-- Modelled from the spec: the version byte(s) of one address kind, a byte
sequence of one or more bytes (the values set by the constructors in
`chainparams.cpp` are not part of the embedded source). -/
structure VersionBytes where
  first : Byte
  rest : List Byte

/-- The byte sequence of a version prefix. -/
def VersionBytes.bytes (v : VersionBytes) : List Byte := v.first :: v.rest

/-- Modelled from the spec: the compiled-in constants of one network variant,
which the constructors of `chainparams.cpp` (absent) write into the members:
a version prefix for each of the five address kinds, and the remaining
constants, held in `fields`. -/
structure VariantConstants (CBlock CAddress : Type) where
  fields : CChainParams CBlock CAddress
  pubkeyAddress : VersionBytes
  scriptAddress : VersionBytes
  secretKey : VersionBytes
  extPublicKey : VersionBytes
  extSecretKey : VersionBytes

/-- Modelled from the spec: construction of the parameter set of one network
variant (the constructors of `CMainParams`, `CTestNetParams` and
`CRegTestParams` in `chainparams.cpp`, absent). The identity member is the
network kind, the address-prefix table gets the version prefix of each address
kind at the index of its enumerator, every other member its constant. -/
def construct (network : Network) (c : VariantConstants CBlock CAddress) :
    CChainParams CBlock CAddress :=
  { c.fields with
    networkID := network
    base58Prefixes := ![c.pubkeyAddress.bytes, c.scriptAddress.bytes, c.secretKey.bytes,
      c.extPublicKey.bytes, c.extSecretKey.bytes] }

/-- Modelled from the spec: the constants of the three variants Main, Testnet
and Regtest (`chainparams.cpp`, absent). -/
structure Variants (CBlock CAddress : Type) where
  main : VariantConstants CBlock CAddress
  testnet : VariantConstants CBlock CAddress
  regtest : VariantConstants CBlock CAddress

/-- Modelled from the spec: the state of the registry, the one process-wide
cell that holds the active parameter set (`chainparams.cpp`, absent). -/
inductive Registry (CBlock CAddress : Type) where
  | Unselected
  | Selected (active : CChainParams CBlock CAddress)

/-- Modelled from the spec: `Params()` (defined in `chainparams.cpp`, absent)
returns the active parameter set; before any selection there is none to
return. -/
def Params : Registry CBlock CAddress → Option (CChainParams CBlock CAddress)
  | .Unselected => none
  | .Selected active => some active

/-- Modelled from the spec: `SelectParams(network)` (defined in
`chainparams.cpp`, absent) publishes the parameter set of the requested
variant as the active one, from either state. The spec names a parameter set
for Main, Testnet and Regtest only; for the count sentinel the result is
`none`. -/
def SelectParams (k : Variants CBlock CAddress) (network : Network)
    (_st : Registry CBlock CAddress) : Option (Registry CBlock CAddress) :=
  match network with
  | .MAIN => some (.Selected (construct .MAIN k.main))
  | .TESTNET => some (.Selected (construct .TESTNET k.testnet))
  | .REGTEST => some (.Selected (construct .REGTEST k.regtest))
  | .MAX_NETWORK_TYPES => none

/-- Modelled from the spec: `SelectParamsFromCommandLine()` (defined in
`chainparams.cpp`, absent) on the two flags "use test network" and "use
regression-test network": neither selects Main, only the first Testnet, only
the second Regtest; both fail, with no selection made. The result is the
boolean returned and the registry after the call. -/
def SelectParamsFromCommandLine (k : Variants CBlock CAddress) (fTestNet fRegTest : Bool)
    (st : Registry CBlock CAddress) : Option (Bool × Registry CBlock CAddress) :=
  match fTestNet, fRegTest with
  | false, false => (SelectParams k .MAIN st).map fun st1 => (true, st1)
  | true, false => (SelectParams k .TESTNET st).map fun st1 => (true, st1)
  | false, true => (SelectParams k .REGTEST st).map fun st1 => (true, st1)
  | true, true => some (false, st)

/-- Constants used in examples: the five prefixes start at consecutive bytes
from the one given, the two extended-key prefixes are four bytes long. -/
def sampleConstants (timespan spacing digiTimespan : Int) (b : Byte) : VariantConstants Unit Unit where
  fields := sample timespan spacing digiTimespan
  pubkeyAddress := ⟨b, []⟩
  scriptAddress := ⟨b + 1, []⟩
  secretKey := ⟨b + 2, []⟩
  extPublicKey := ⟨b + 3, [1, 2, 3]⟩
  extSecretKey := ⟨b + 4, [1, 2, 3]⟩

/-- Three variants used in examples. -/
def sampleVariants : Variants Unit Unit where
  main := sampleConstants 14400 60 60 30
  testnet := sampleConstants 14400 60 60 113
  regtest := sampleConstants 14400 60 60 111

/-! ## Arithmetic of the 64-bit quotient -/

theorem roundTowardZero_neg (x : ℚ) : roundTowardZero (-x) = -roundTowardZero x := by
  unfold roundTowardZero
  rcases lt_trichotomy x 0 with hx | hx | hx
  · have h1 : (0 : ℚ) ≤ -x := by linarith
    have h2 : ¬ (0 : ℚ) ≤ x := by linarith
    rw [if_pos h1, if_neg h2, Int.floor_neg]
  · subst hx; simp
  · have h1 : ¬ (0 : ℚ) ≤ -x := by linarith
    have h2 : (0 : ℚ) ≤ x := by linarith
    rw [if_neg h1, if_pos h2, Int.ceil_neg]

theorem truncatedQuotient_natCast (a b : ℕ) :
    truncatedQuotient (a : Int) (b : Int) = Int.tdiv (a : Int) (b : Int) := by
  unfold truncatedQuotient roundTowardZero
  have hx : (0 : ℚ) ≤ ((a : Int) : ℚ) / ((b : Int) : ℚ) := by positivity
  rw [if_pos hx, Int.tdiv_eq_ediv (Int.ofNat_nonneg a) (Int.ofNat_nonneg b)]
  have h := Rat.floor_intCast_div_natCast (a : Int) b
  simpa using h

/-- The quotient of the specification is the truncating quotient `Int.tdiv`. -/
theorem truncatedQuotient_eq_tdiv (t s : Int) : truncatedQuotient t s = Int.tdiv t s := by
  obtain ⟨a, rfl | rfl⟩ := Int.eq_nat_or_neg t <;> obtain ⟨b, rfl | rfl⟩ := Int.eq_nat_or_neg s
  · exact truncatedQuotient_natCast a b
  · have h := truncatedQuotient_natCast a b
    unfold truncatedQuotient at h ⊢
    rw [Int.tdiv_neg, ← h, ← roundTowardZero_neg]
    congr 1
    push_cast
    rw [div_neg]
  · have h := truncatedQuotient_natCast a b
    unfold truncatedQuotient at h ⊢
    rw [Int.neg_tdiv, ← h, ← roundTowardZero_neg]
    congr 1
    push_cast
    rw [neg_div]
  · have h := truncatedQuotient_natCast a b
    unfold truncatedQuotient at h ⊢
    rw [Int.tdiv_neg, Int.neg_tdiv, neg_neg, ← h]
    congr 1
    push_cast
    rw [neg_div_neg_eq]

theorem div64_eq_some {a b : Int} (hb : b ≠ 0) (hq : ¬ (a = INT64_MIN ∧ b = -1)) :
    div64 a b = some (Int.tdiv a b) := by
  unfold div64
  rw [if_neg hb, if_neg hq]

theorem div64_eq_none_iff (a b : Int) :
    div64 a b = none ↔ b = 0 ∨ (a = INT64_MIN ∧ b = -1) := by
  unfold div64
  by_cases hb : b = 0
  · simp [hb]
  · by_cases hq : a = INT64_MIN ∧ b = -1
    · simp [hb, hq]
    · rw [if_neg hb, if_neg hq]
      simp [hb, hq]

/-- A defined quotient of a representable dividend is representable. -/
theorem tdiv_inInt64 {a b : Int} (ha : InInt64 a) (hb : b ≠ 0)
    (hq : ¬ (a = INT64_MIN ∧ b = -1)) : InInt64 (Int.tdiv a b) := by
  unfold InInt64 INT64_MIN INT64_MAX at *
  have hn : (Int.tdiv a b).natAbs = a.natAbs / b.natAbs := Int.natAbs_tdiv a b
  by_cases h1 : b = 1
  · subst h1; simpa using ha
  · by_cases h2 : b = -1
    · subst h2
      have ha2 : a ≠ -(2 ^ 63) := fun h => hq ⟨h, rfl⟩
      have : Int.tdiv a (-1) = -a := by simp
      rw [this]
      omega
    · have hb2 : 2 ≤ b.natAbs := by omega
      have hle : a.natAbs / b.natAbs ≤ a.natAbs / 2 :=
        Nat.div_le_div_left hb2 (by norm_num)
      omega

/-- For a positive divisor and a non-negative dividend the truncating quotient
brackets the dividend. -/
theorem tdiv_bounds {t s : Int} (hs : 0 < s) (ht : 0 ≤ t) :
    Int.tdiv t s * s ≤ t ∧ t < (Int.tdiv t s + 1) * s := by
  have h1 := Int.tdiv_add_tmod' t s
  have h2 := Int.tmod_nonneg s ht
  have h3 := Int.tmod_lt_of_pos t hs
  constructor
  · linarith
  · nlinarith

theorem tdiv_mono {t u s : Int} (hs : 0 < s) (ht : 0 ≤ t) (htu : t ≤ u) :
    Int.tdiv t s ≤ Int.tdiv u s := by
  rw [Int.tdiv_eq_ediv ht (le_of_lt hs), Int.tdiv_eq_ediv (le_trans ht htu) (le_of_lt hs)]
  exact Int.ediv_le_ediv hs htu

/-! ## The retarget intervals -/

/-- C1, as stated, fails: with `nTargetTimespan = INT64_MIN` and
`nTargetSpacing = -1` the spacing is not zero, both members are representable,
and `Interval()` does not return the quotient rounded toward zero: the
division has no defined result, the quotient being no `int64_t` value. -/
theorem Interval_overflow_counterexample :
    (sample INT64_MIN (-1) 60).WellTyped ∧
    (sample INT64_MIN (-1) 60).TargetSpacing ≠ 0 ∧
    (sample INT64_MIN (-1) 60).Interval = none ∧
    (sample INT64_MIN (-1) 60).Interval ≠
      some (truncatedQuotient (sample INT64_MIN (-1) 60).TargetTimespan
        (sample INT64_MIN (-1) 60).TargetSpacing) ∧
    ¬ InInt64 (truncatedQuotient (sample INT64_MIN (-1) 60).TargetTimespan
      (sample INT64_MIN (-1) 60).TargetSpacing) := by
  refine ⟨by decide, by decide, by decide, ?_, ?_⟩
  · have h : (sample INT64_MIN (-1) 60).Interval = none := by decide
    rw [h]
    exact fun h2 => Option.noConfusion h2
  · rw [truncatedQuotient_eq_tdiv]
    decide

/-- C1, amended: for every parameter set whose spacing is not zero and whose
division does not overflow (not `INT64_MIN / -1`), `Interval()` returns the
exact quotient of `TargetTimespan()` by `TargetSpacing()` rounded toward zero,
a representable value when the timespan is; 60 by 1 gives 60 and 61 by 2
gives 30. -/
theorem Interval_eq_truncatedQuotient {CBlock CAddress : Type}
    (p : CChainParams CBlock CAddress) (hs : p.TargetSpacing ≠ 0)
    (hq : ¬ (p.TargetTimespan = INT64_MIN ∧ p.TargetSpacing = -1)) :
    p.Interval = some (truncatedQuotient p.TargetTimespan p.TargetSpacing) ∧
    (InInt64 p.TargetTimespan →
      InInt64 (truncatedQuotient p.TargetTimespan p.TargetSpacing)) ∧
    (sample 60 1 60).Interval = some 60 ∧ (sample 61 2 60).Interval = some 30 := by
  refine ⟨?_, ?_, by decide, by decide⟩
  · rw [truncatedQuotient_eq_tdiv]
    exact div64_eq_some hs hq
  · intro ht
    rw [truncatedQuotient_eq_tdiv]
    exact tdiv_inInt64 ht hs hq

theorem Interval_eq_truncatedQuotient_witness :
    ((sample 61 2 60).TargetSpacing ≠ 0 ∧
      ¬ ((sample 61 2 60).TargetTimespan = INT64_MIN ∧ (sample 61 2 60).TargetSpacing = -1)) ∧
    (sample 61 2 60).Interval =
      some (truncatedQuotient (sample 61 2 60).TargetTimespan (sample 61 2 60).TargetSpacing) :=
  ⟨⟨by decide, by decide⟩,
    (Interval_eq_truncatedQuotient (sample 61 2 60) (by decide) (by decide)).1⟩

/-- C2, as stated, fails: with `nDigiShieldTargetTimespan = INT64_MIN` and
`nTargetSpacing = -1` the spacing is not zero, both members are representable,
and `DigiShieldInterval()` does not return the quotient rounded toward zero:
the division has no defined result, the quotient being no `int64_t` value. -/
theorem DigiShieldInterval_overflow_counterexample :
    (sample 60 (-1) INT64_MIN).WellTyped ∧
    (sample 60 (-1) INT64_MIN).TargetSpacing ≠ 0 ∧
    (sample 60 (-1) INT64_MIN).DigiShieldInterval = none ∧
    (sample 60 (-1) INT64_MIN).DigiShieldInterval ≠
      some (truncatedQuotient (sample 60 (-1) INT64_MIN).DigiShieldTargetTimespan
        (sample 60 (-1) INT64_MIN).TargetSpacing) ∧
    ¬ InInt64 (truncatedQuotient (sample 60 (-1) INT64_MIN).DigiShieldTargetTimespan
      (sample 60 (-1) INT64_MIN).TargetSpacing) := by
  refine ⟨by decide, by decide, by decide, ?_, ?_⟩
  · have h : (sample 60 (-1) INT64_MIN).DigiShieldInterval = none := by decide
    rw [h]
    exact fun h2 => Option.noConfusion h2
  · rw [truncatedQuotient_eq_tdiv]
    decide

/-- C2, amended: for every parameter set whose spacing is not zero and whose
division does not overflow (not `INT64_MIN / -1`), `DigiShieldInterval()`
returns the exact quotient of `DigiShieldTargetTimespan()` by
`TargetSpacing()` rounded toward zero; the divisor is the spacing that
`Interval()` divides by, so the result depends on those two members only. -/
theorem DigiShieldInterval_eq_truncatedQuotient {CBlock CAddress : Type}
    (p : CChainParams CBlock CAddress) (hs : p.TargetSpacing ≠ 0)
    (hq : ¬ (p.DigiShieldTargetTimespan = INT64_MIN ∧ p.TargetSpacing = -1)) :
    p.DigiShieldInterval =
      some (truncatedQuotient p.DigiShieldTargetTimespan p.TargetSpacing) ∧
    (InInt64 p.DigiShieldTargetTimespan →
      InInt64 (truncatedQuotient p.DigiShieldTargetTimespan p.TargetSpacing)) ∧
    (∀ q : CChainParams CBlock CAddress,
      q.DigiShieldTargetTimespan = p.DigiShieldTargetTimespan →
      q.TargetSpacing = p.TargetSpacing → q.DigiShieldInterval = p.DigiShieldInterval) := by
  refine ⟨?_, ?_, ?_⟩
  · rw [truncatedQuotient_eq_tdiv]
    exact div64_eq_some hs hq
  · intro ht
    rw [truncatedQuotient_eq_tdiv]
    exact tdiv_inInt64 ht hs hq
  · intro q h1 h2
    unfold CChainParams.DigiShieldInterval
    unfold CChainParams.DigiShieldTargetTimespan at h1
    unfold CChainParams.TargetSpacing at h2
    rw [h1, h2]

theorem DigiShieldInterval_eq_truncatedQuotient_witness :
    ((sample 14400 60 61).TargetSpacing ≠ 0 ∧
      ¬ ((sample 14400 60 61).DigiShieldTargetTimespan = INT64_MIN ∧
        (sample 14400 60 61).TargetSpacing = -1)) ∧
    (sample 14400 60 61).DigiShieldInterval =
      some (truncatedQuotient (sample 14400 60 61).DigiShieldTargetTimespan
        (sample 14400 60 61).TargetSpacing) :=
  ⟨⟨by decide, by decide⟩,
    (DigiShieldInterval_eq_truncatedQuotient (sample 14400 60 61) (by decide) (by decide)).1⟩

/-- C10: for every parameter set with a positive spacing, a non-negative
timespan is bracketed by `Interval() * TargetSpacing()` and
`(Interval() + 1) * TargetSpacing()`, a non-negative DigiShield timespan
likewise by `DigiShieldInterval()`, and a DigiShield timespan between zero and
the timespan gives `DigiShieldInterval() <= Interval()`. -/
theorem Interval_bounds {CBlock CAddress : Type} (p : CChainParams CBlock CAddress)
    (hs : 0 < p.TargetSpacing) :
    (0 ≤ p.TargetTimespan → ∃ i, p.Interval = some i ∧
      i * p.TargetSpacing ≤ p.TargetTimespan ∧
      p.TargetTimespan < (i + 1) * p.TargetSpacing) ∧
    (0 ≤ p.DigiShieldTargetTimespan → ∃ d, p.DigiShieldInterval = some d ∧
      d * p.TargetSpacing ≤ p.DigiShieldTargetTimespan ∧
      p.DigiShieldTargetTimespan < (d + 1) * p.TargetSpacing) ∧
    (0 ≤ p.DigiShieldTargetTimespan → p.DigiShieldTargetTimespan ≤ p.TargetTimespan →
      ∃ i d, p.Interval = some i ∧ p.DigiShieldInterval = some d ∧ d ≤ i) := by
  have hne : p.TargetSpacing ≠ 0 := ne_of_gt hs
  have hq : ∀ a : Int, ¬ (a = INT64_MIN ∧ p.TargetSpacing = -1) := by
    intro a h
    rw [h.2] at hs
    exact absurd hs (by decide)
  have hI : p.Interval = some (Int.tdiv p.TargetTimespan p.TargetSpacing) :=
    div64_eq_some hne (hq _)
  have hD : p.DigiShieldInterval =
      some (Int.tdiv p.DigiShieldTargetTimespan p.TargetSpacing) :=
    div64_eq_some hne (hq _)
  refine ⟨?_, ?_, ?_⟩
  · intro ht
    exact ⟨_, hI, tdiv_bounds hs ht⟩
  · intro hd
    exact ⟨_, hD, tdiv_bounds hs hd⟩
  · intro hd hdt
    exact ⟨_, _, hI, hD, tdiv_mono hs hd hdt⟩

theorem Interval_bounds_witness :
    (0 < (sample 14400 60 61).TargetSpacing ∧
      0 ≤ (sample 14400 60 61).DigiShieldTargetTimespan ∧
      (sample 14400 60 61).DigiShieldTargetTimespan ≤ (sample 14400 60 61).TargetTimespan) ∧
    ∃ i d, (sample 14400 60 61).Interval = some i ∧
      (sample 14400 60 61).DigiShieldInterval = some d ∧ d ≤ i :=
  ⟨by decide, (Interval_bounds (sample 14400 60 61) (by decide)).2.2 (by decide) (by decide)⟩

/-! ## Accessor calls -/

/-- C7, as stated, fails: on a parameter set with `nTargetSpacing = 0` the
calls `Interval()` and `DigiShieldInterval()` divide by zero, and
`Base58Prefix(MAX_BASE58_TYPES)`, an enumerator of `Base58Type`, indexes one
past the end of the table. -/
theorem accessors_total_counterexample :
    (sample 60 0 60).WellTyped ∧
    call Accessor.Interval (sample 60 0 60) = none ∧
    call Accessor.DigiShieldInterval (sample 60 0 60) = none ∧
    ¬ (Base58Type.MAX_BASE58_TYPES.toNat < MAX_BASE58_TYPES) ∧
    call (Accessor.Base58Prefix Base58Type.MAX_BASE58_TYPES) (sample 60 0 60) = none := by
  decide

/-- C7, amended: a call of an accessor returns a defined result on every
parameter set and every argument, except exactly these: `Base58Prefix` at the
count sentinel `MAX_BASE58_TYPES` (for each of the five address kinds the
index is inside the table), and `Interval()` / `DigiShieldInterval()` when
`TargetSpacing()` is zero or the division is `INT64_MIN / -1`. -/
theorem call_eq_none_iff {CBlock CAddress : Type} (p : CChainParams CBlock CAddress)
    (a : Accessor) :
    call a p = none ↔
      a = Accessor.Base58Prefix Base58Type.MAX_BASE58_TYPES ∨
      (a = Accessor.Interval ∧
        (p.TargetSpacing = 0 ∨ (p.TargetTimespan = INT64_MIN ∧ p.TargetSpacing = -1))) ∨
      (a = Accessor.DigiShieldInterval ∧
        (p.TargetSpacing = 0 ∨
          (p.DigiShieldTargetTimespan = INT64_MIN ∧ p.TargetSpacing = -1))) := by
  cases a
  case Interval =>
    simp [call, CChainParams.Interval, CChainParams.TargetSpacing,
      CChainParams.TargetTimespan, div64_eq_none_iff]
  case DigiShieldInterval =>
    simp [call, CChainParams.DigiShieldInterval, CChainParams.TargetSpacing,
      CChainParams.DigiShieldTargetTimespan, div64_eq_none_iff]
  case Base58Prefix type =>
    cases type <;>
      simp [call, CChainParams.Base58Prefix, Base58Type.toNat, MAX_BASE58_TYPES]
  all_goals simp [call]

/-- Executing the body of an accessor returns what `call` gives and leaves the
object as it was: no body has an assignment. -/
theorem invoke_eq {CBlock CAddress : Type} (a : Accessor)
    (self : CChainParams CBlock CAddress) : invoke a self = (call a self, self) := by
  cases a
  case Base58Prefix type =>
    unfold invoke body exec call CChainParams.Base58Prefix
    by_cases h : type.toNat < MAX_BASE58_TYPES
    · simp [h]
    · simp [h]
  all_goals rfl

/-- A sequence of calls that all return: each returns its value on the object
of the start, and the object at the end is that object. -/
theorem invokeAll_of_defined {CBlock CAddress : Type} (calls : List Accessor)
    (self : CChainParams CBlock CAddress) (h : ∀ a ∈ calls, call a self ≠ none) :
    invokeAll calls self = (calls.map fun a => call a self, self) := by
  induction calls with
  | nil => rfl
  | cons a rest ih =>
    have ha : call a self ≠ none := h a (List.mem_cons_self a rest)
    have ih2 := ih (fun b hb => h b (List.mem_cons_of_mem a hb))
    obtain ⟨v, hv⟩ := Option.ne_none_iff_exists'.mp ha
    unfold invokeAll
    rw [invoke_eq, hv]
    simp only [ih2, List.map_cons, hv]

/-- C9, as stated, fails: on a parameter set with `nTargetSpacing = 0`, of the
calls `GenesisBlock()`, `Interval()`, `GenesisBlock()` the first returns the
block, the second divides by zero, and the third is never executed, so it
returns no block. -/
theorem second_GenesisBlock_counterexample :
    (sample 60 0 60).WellTyped ∧
    (invokeAll [Accessor.GenesisBlock, Accessor.Interval, Accessor.GenesisBlock]
      (sample 60 0 60)).1 = [some (Value.block (sample 60 0 60).GenesisBlock), none] ∧
    (invokeAll [Accessor.GenesisBlock, Accessor.Interval, Accessor.GenesisBlock]
      (sample 60 0 60)).1.getLast? ≠ some (some (Value.block (sample 60 0 60).GenesisBlock)) := by
  decide

/-- C9, amended: a call of an accessor that returns leaves the parameter set
as it was; and of two `GenesisBlock()` calls with any accessor calls in
between that all have a defined result, both return the genesis member, each
call in between returns what it returns on the parameter set of the start,
and the parameter set at the end is the one of the start. -/
theorem accessors_read_only {CBlock CAddress : Type} (self : CChainParams CBlock CAddress)
    (calls : List Accessor) (h : ∀ a ∈ calls, call a self ≠ none) :
    (∀ a v, (invoke a self).1 = some v → (invoke a self).2 = self) ∧
    invokeAll (Accessor.GenesisBlock :: (calls ++ [Accessor.GenesisBlock])) self =
      (some (Value.block self.GenesisBlock) ::
        ((calls.map fun a => call a self) ++ [some (Value.block self.GenesisBlock)]), self) := by
  constructor
  · intro a v _
    rw [invoke_eq]
  · have hall : ∀ a ∈ Accessor.GenesisBlock :: (calls ++ [Accessor.GenesisBlock]),
        call a self ≠ none := by
      intro a ha
      rcases List.mem_cons.mp ha with rfl | ha
      · exact fun h0 => Option.noConfusion h0
      · rcases List.mem_append.mp ha with ha | ha
        · exact h a ha
        · rw [List.mem_singleton.mp ha]
          exact fun h0 => Option.noConfusion h0
    rw [invokeAll_of_defined _ self hall]
    simp [call]

theorem accessors_read_only_witness :
    (∀ a ∈ [Accessor.Interval, Accessor.NetworkID], call a (sample 61 2 60) ≠ none) ∧
    (invokeAll [Accessor.GenesisBlock, Accessor.Interval, Accessor.NetworkID,
      Accessor.GenesisBlock] (sample 61 2 60)).1 =
      [some (Value.block (sample 61 2 60).GenesisBlock), some (Value.int64 30),
        some (Value.network Network.MAIN), some (Value.block (sample 61 2 60).GenesisBlock)] :=
  ⟨by decide,
    congrArg Prod.fst
      (accessors_read_only (sample 61 2 60) [Accessor.Interval, Accessor.NetworkID]
        (by decide)).2⟩

/-! ## Selection -/

/-- C3: for each of MAIN, TESTNET and REGTEST and every prior registry state,
`SelectParams` succeeds and the parameter set `Params()` then returns has
that network as its `NetworkID()`; a second selection succeeds too and
replaces the first. -/
theorem SelectParams_NetworkID {CBlock CAddress : Type} (k : Variants CBlock CAddress)
    (st : Registry CBlock CAddress) (n : Network) (hn : n ≠ Network.MAX_NETWORK_TYPES) :
    (∃ st1 p, SelectParams k n st = some st1 ∧ Params st1 = some p ∧ p.NetworkID = n) ∧
    (∀ m, m ≠ Network.MAX_NETWORK_TYPES →
      ∃ st1 st2 p, SelectParams k n st = some st1 ∧ SelectParams k m st1 = some st2 ∧
        SelectParams k m st = some st2 ∧ Params st2 = some p ∧ p.NetworkID = m) := by
  constructor
  · cases n
    · exact ⟨_, _, rfl, rfl, rfl⟩
    · exact ⟨_, _, rfl, rfl, rfl⟩
    · exact ⟨_, _, rfl, rfl, rfl⟩
    · exact absurd rfl hn
  · intro m hm
    cases n
    case MAX_NETWORK_TYPES => exact absurd rfl hn
    all_goals
      cases m
      case MAX_NETWORK_TYPES => exact absurd rfl hm
      all_goals exact ⟨_, _, _, rfl, rfl, rfl, rfl, rfl⟩

theorem SelectParams_NetworkID_witness :
    Network.TESTNET ≠ Network.MAX_NETWORK_TYPES ∧
    ∃ st1 p, SelectParams sampleVariants Network.TESTNET
        (Registry.Selected (construct Network.MAIN sampleVariants.main)) = some st1 ∧
      Params st1 = some p ∧ p.NetworkID = Network.TESTNET :=
  ⟨by decide,
    (SelectParams_NetworkID sampleVariants
      (Registry.Selected (construct Network.MAIN sampleVariants.main)) Network.TESTNET
      (by decide)).1⟩

/-- C4: with both flags present `SelectParamsFromCommandLine` returns false
and the registry after the call is the registry before it, so `Params()`
gives what it gave before (or is still unselected). -/
theorem SelectParamsFromCommandLine_both_flags {CBlock CAddress : Type}
    (k : Variants CBlock CAddress) (st : Registry CBlock CAddress) :
    SelectParamsFromCommandLine k true true st = some (false, st) ∧
    (SelectParamsFromCommandLine k true true st).map (fun r => Params r.2) =
      some (Params st) :=
  ⟨rfl, rfl⟩

/-- C5: `SelectParamsFromCommandLine` returns true and makes the selection of
`SelectParams(MAIN)` with neither flag, of `SelectParams(TESTNET)` with only
the testnet flag, of `SelectParams(REGTEST)` with only the regtest flag; it
always returns, and returns false exactly when both flags are present. -/
theorem SelectParamsFromCommandLine_selects {CBlock CAddress : Type}
    (k : Variants CBlock CAddress) (st : Registry CBlock CAddress) :
    (∃ p, SelectParamsFromCommandLine k false false st = some (true, Registry.Selected p) ∧
      SelectParams k Network.MAIN st = some (Registry.Selected p) ∧
      p.NetworkID = Network.MAIN) ∧
    (∃ p, SelectParamsFromCommandLine k true false st = some (true, Registry.Selected p) ∧
      SelectParams k Network.TESTNET st = some (Registry.Selected p) ∧
      p.NetworkID = Network.TESTNET) ∧
    (∃ p, SelectParamsFromCommandLine k false true st = some (true, Registry.Selected p) ∧
      SelectParams k Network.REGTEST st = some (Registry.Selected p) ∧
      p.NetworkID = Network.REGTEST) ∧
    (∀ fTestNet fRegTest, ∃ ok st1,
      SelectParamsFromCommandLine k fTestNet fRegTest st = some (ok, st1) ∧
      (ok = false ↔ (fTestNet = true ∧ fRegTest = true))) := by
  refine ⟨⟨_, rfl, rfl, rfl⟩, ⟨_, rfl, rfl, rfl⟩, ⟨_, rfl, rfl, rfl⟩, ?_⟩
  intro fTestNet fRegTest
  cases fTestNet <;> cases fRegTest
  · exact ⟨true, _, rfl, by simp⟩
  · exact ⟨true, _, rfl, by simp⟩
  · exact ⟨true, _, rfl, by simp⟩
  · exact ⟨false, _, rfl, by simp⟩

/-- C6: the parameter set that the selection of Main, Testnet or Regtest
publishes has an address-prefix table of exactly 5 entries, the five address
kinds are its indices 0 to 4 in order, and `Base58Prefix(kind)` is a defined,
non-empty byte sequence for each of the five kinds. -/
theorem variant_Base58Prefix_nonempty {CBlock CAddress : Type} (k : Variants CBlock CAddress)
    (st : Registry CBlock CAddress) (n : Network) (p : CChainParams CBlock CAddress)
    (hsel : (SelectParams k n st).bind Params = some p)
    (kind : Base58Type) (hk : kind ≠ Base58Type.MAX_BASE58_TYPES) :
    Fintype.card (Fin MAX_BASE58_TYPES) = 5 ∧
    [Base58Type.PUBKEY_ADDRESS, Base58Type.SCRIPT_ADDRESS, Base58Type.SECRET_KEY,
      Base58Type.EXT_PUBLIC_KEY, Base58Type.EXT_SECRET_KEY].map Base58Type.toNat =
      List.range MAX_BASE58_TYPES ∧
    ∃ bytes, p.Base58Prefix kind = some bytes ∧ bytes ≠ [] := by
  refine ⟨by decide, by decide, ?_⟩
  cases n
  case MAX_NETWORK_TYPES => simp [SelectParams] at hsel
  all_goals
    simp only [SelectParams, Option.some_bind, Params, Option.some.injEq] at hsel
    subst hsel
    cases kind
    case MAX_BASE58_TYPES => exact absurd rfl hk
    all_goals exact ⟨_, rfl, List.cons_ne_nil _ _⟩

theorem variant_Base58Prefix_nonempty_witness :
    ((SelectParams sampleVariants Network.REGTEST Registry.Unselected).bind Params =
        some (construct Network.REGTEST sampleVariants.regtest) ∧
      Base58Type.EXT_SECRET_KEY ≠ Base58Type.MAX_BASE58_TYPES) ∧
    ∃ bytes, (construct Network.REGTEST sampleVariants.regtest).Base58Prefix
        Base58Type.EXT_SECRET_KEY = some bytes ∧ bytes ≠ [] :=
  ⟨⟨rfl, by decide⟩,
    (variant_Base58Prefix_nonempty sampleVariants Registry.Unselected Network.REGTEST
      (construct Network.REGTEST sampleVariants.regtest) rfl Base58Type.EXT_SECRET_KEY
      (by decide)).2.2⟩

end ChainParams
